import Mathlib

/-!
# Shallow embedding of the GA-Pilot-Logbook API (`src/app/main.py`)

The repository exposes CRUD-style HTTP endpoints over four entity tables.
The route handlers live in `src/app/main.py` and are embedded here directly.
The data-access module (`sqlUtils/crud.py`) is only called from `main.py` and
is not part of `src/`; its operations are modelled from the spec
(section 2 "Data-access layer", section 3 "Data model", section 4).

Python strings are modelled as lists of Unicode code points (`List Nat`) so
that `str.upper()` can be modelled arithmetically on ASCII letters.
-/

namespace Nauclerus

/-- A Python string, as its list of Unicode code points. -/
abbrev Str := List Nat

/-- `str.upper()` on a single ASCII code point: lowercase letters `a`-`z`
(97-122) map to `A`-`Z` (65-90); everything else is unchanged. -/
def upNat (n : Nat) : Nat := if 97 ≤ n ∧ n ≤ 122 then n - 32 else n

/-- Case folding of a single ASCII code point to lowercase, used to state
"differ only in letter case". -/
def lowNat (n : Nat) : Nat := if 65 ≤ n ∧ n ≤ 90 then n + 32 else n

/-- `str.upper()` applied to a whole string. -/
def upStr (s : Str) : Str := s.map upNat

/-- Lowercase case folding of a whole string. -/
def lowStr (s : Str) : Str := s.map lowNat

/-- A Pilot row: auto-assigned identity and display name (spec section 3). -/
structure Pilot where
  id : Nat
  name : String
deriving DecidableEq, Repr

/-- An Aircraft row: identity, tail number, owning pilot reference. -/
structure Aircraft where
  id : Nat
  tail : Str
  pilot_id : Nat
deriving DecidableEq, Repr

/-- A Flight row: identity and foreign references to a Pilot and an Aircraft.
Other flight attributes are "not detailed in source beyond creation schema". -/
structure Flight where
  id : Nat
  pilot_id : Nat
  aircraft_id : Nat
deriving DecidableEq, Repr

/-- A Logbook layout row: identity and owning pilot reference. -/
structure Logbook where
  id : Nat
  pilot_id : Nat
deriving DecidableEq, Repr

/-- The persistent state: the four entity tables plus the auto-increment
counter used for assigned identities. -/
structure DB where
  pilots : List Pilot
  aircraft : List Aircraft
  flights : List Flight
  logbooks : List Logbook
  nextId : Nat
deriving DecidableEq, Repr

/-- Request body for `POST /pilot/new/` (`PilotCreate` schema): a name. -/
structure PilotCreate where
  name : String
deriving DecidableEq, Repr

/-- Request body for `POST /aircraft/new/{pilot_id}`: aircraft attributes,
of which the tail number is the one used by the embedded operations. -/
structure AircraftCreate where
  tail : Str
deriving DecidableEq, Repr

/-- Request body for `POST /flight/`: flight attributes, not detailed in
source beyond the creation schema. -/
structure FlightCreate where
  attrs : Unit := ()
deriving DecidableEq, Repr

/-- Request body for `POST /logbook/`: layout definition with its owning
pilot reference. -/
structure LogbookCreate where
  pilot_id : Nat
deriving DecidableEq, Repr

/-- An HTTP outcome: a success response with status code and body, or an
`HTTPException` with status code and detail string. -/
inductive Resp (α : Type) where
  | ok : Nat → α → Resp α
  | err : Nat → String → Resp α
deriving DecidableEq, Repr

/-! ## Data-access layer (modelled from the spec) -/

/-- Modelled from the spec: `sqlUtils/crud.py` is not under `src/`.
Get-by-id lookup for pilots ("one function per entity operation (get-by-id,
...)"). The id argument is optional because `p_flight` passes a possibly
omitted query parameter; an SQL equality against NULL matches no row, so a
`none` id finds nothing. -/
def get_pilot_by_id (db : DB) (pilot_id : Option Nat) : Option Pilot :=
  match pilot_id with
  | none => none
  | some i => db.pilots.find? (fun p => p.id == i)

/-- Modelled from the spec: get-by-name lookup for pilots, used by the
uniqueness check of `p_pilot`. -/
def get_pilot_by_name (db : DB) (pilot_name : String) : Option Pilot :=
  db.pilots.find? (fun p => p.name == pilot_name)

/-- Modelled from the spec: "inserts and returns the created record";
identities are auto-assigned and immutable once assigned. -/
def create_pilot (db : DB) (pilot : PilotCreate) : DB × Pilot :=
  let p : Pilot := { id := db.nextId, name := pilot.name }
  ({ db with pilots := db.pilots ++ [p], nextId := db.nextId + 1 }, p)

/-- Modelled from the spec: get-by-id lookup for aircraft; a `none` id
finds no row (SQL NULL semantics). -/
def get_aircraft_by_id (db : DB) (ac_id : Option Nat) : Option Aircraft :=
  match ac_id with
  | none => none
  | some i => db.aircraft.find? (fun a => a.id == i)

/-- Modelled from the spec: lookup of an aircraft by tail number ("unique
lookup key"); returns the matching record or a null result if none found. -/
def get_aircraft_by_tail (db : DB) (tail_numb : Str) : Option Aircraft :=
  db.aircraft.find? (fun a => a.tail == tail_numb)

/-- Modelled from the spec: inserts an aircraft row owned by the given
pilot id and returns the created record. -/
def create_aircraft (db : DB) (aircraft : AircraftCreate) (pilot_id : Nat) :
    DB × Aircraft :=
  let a : Aircraft := { id := db.nextId, tail := aircraft.tail, pilot_id := pilot_id }
  ({ db with aircraft := db.aircraft ++ [a], nextId := db.nextId + 1 }, a)

/-- Modelled from the spec: inserts a flight row referencing the given
pilot and aircraft ids and returns the created record. -/
def create_flight (db : DB) (_flight : FlightCreate) (pilot_id aircraft_id : Nat) :
    DB × Flight :=
  let f : Flight := { id := db.nextId, pilot_id := pilot_id, aircraft_id := aircraft_id }
  ({ db with flights := db.flights ++ [f], nextId := db.nextId + 1 }, f)

/-- Modelled from the spec: "returns the set of logbook layout rows owned
by that pilot (empty set if none)". -/
def get_logbook_by_pilot (db : DB) (pilot_id : Nat) : List Logbook :=
  db.logbooks.filter (fun lb => lb.pilot_id == pilot_id)

/-- Modelled from the spec: inserts a logbook layout row unconditionally
and returns the created row. -/
def create_logbook (db : DB) (logbook : LogbookCreate) : DB × Logbook :=
  let lb : Logbook := { id := db.nextId, pilot_id := logbook.pilot_id }
  ({ db with logbooks := db.logbooks ++ [lb], nextId := db.nextId + 1 }, lb)

/-- Modelled from the spec: "removes the matching row scoped to both
(prevents cross-pilot deletion)" — only rows matching both the pilot id and
the logbook id are removed. -/
def delete_logbook_map (db : DB) (pilot_id logbook_id : Nat) : DB :=
  { db with logbooks :=
      db.logbooks.filter (fun lb => !(lb.pilot_id == pilot_id && lb.id == logbook_id)) }

/-! ## Route handlers (embedded from `src/app/main.py`) -/

/-- `GET /pilot/{pilot_id}` (`g_pilot`, main.py lines 90-98): looks the
pilot up by id and raises 422 "Pilot ID required." when no row matches. -/
def g_pilot (pilot_id : Nat) (db : DB) : Resp Pilot :=
  match get_pilot_by_id db (some pilot_id) with
  | none => .err 422 "Pilot ID required."
  | some p => .ok 200 p

/-- `POST /pilot/new/` (`p_pilot`, main.py lines 101-110): checks name
uniqueness, raises 400 "Name already registered" on conflict, otherwise
creates and returns the pilot with status 201. -/
def p_pilot (pilot : PilotCreate) (db : DB) : Resp Pilot × DB :=
  match get_pilot_by_name db pilot.name with
  | some _ => (.err 400 "Name already registered", db)
  | none =>
    let (db2, p) := create_pilot db pilot
    (.ok 201 p, db2)

/-- `GET /logbook/all/{pilot_id}` (`g_logbook`, main.py lines 113-119):
path parameter declared with a `None` default; raises 400 "Pilot ID needed"
when it is `None`, otherwise returns the pilot's logbook rows. -/
def g_logbook (pilot_id : Option Nat) (db : DB) : Resp (List Logbook) :=
  match pilot_id with
  | none => .err 400 "Pilot ID needed"
  | some pid => .ok 200 (get_logbook_by_pilot db pid)

/-- `POST /logbook/` (`p_logbook`, main.py lines 122-127): inserts
unconditionally, returns the created row with status 201. -/
def p_logbook (logbook : LogbookCreate) (db : DB) : Resp Logbook × DB :=
  let (db2, lb) := create_logbook db logbook
  (.ok 201 lb, db2)

/-- `DELETE /logbook/rm` (`del_logbook`, main.py lines 130-135): calls the
scoped delete and responds with status 202 unconditionally. -/
def del_logbook (pilot_id logbook_id : Nat) (db : DB) : Resp Unit × DB :=
  (.ok 202 (), delete_logbook_map db pilot_id logbook_id)

/-- `GET /aircraft/s/tn/{ac_tail}` (`search_tn`, main.py lines 138-145):
path parameter declared with a `None` default; raises 400 "Missing Tail
Number" when it is `None`, otherwise uppercases the input and looks the
aircraft up by tail number. -/
def search_tn (ac_tail : Option Str) (db : DB) : Resp (Option Aircraft) :=
  match ac_tail with
  | none => .err 400 "Missing Tail Number"
  | some t => .ok 200 (get_aircraft_by_tail db (upStr t))

/-- `POST /aircraft/new/{pilot_id}` (`p_aircraft`, main.py lines 148-154):
inserts unconditionally — no check that the pilot id exists — and returns
the created aircraft with status 201. -/
def p_aircraft (pilot_id : Nat) (aircraft : AircraftCreate) (db : DB) :
    Resp Aircraft × DB :=
  let (db2, a) := create_aircraft db aircraft pilot_id
  (.ok 201 a, db2)

/-- `POST /flight/` (`p_flight`, main.py lines 157-172): performs both
lookups, checks the pilot result first (422 "Pilot ID required."), then the
aircraft result (422 "Aircraft ID required."), and only when both found
creates and returns the flight with status 201. The `getD 0` defaults are
unreachable: the success branch forces both optional ids to be `some`. -/
def p_flight (flight : FlightCreate) (pilot_id aircraft_id : Option Nat)
    (db : DB) : Resp Flight × DB :=
  match get_pilot_by_id db pilot_id, get_aircraft_by_id db aircraft_id with
  | none, _ => (.err 422 "Pilot ID required.", db)
  | some _, none => (.err 422 "Aircraft ID required.", db)
  | some _, some _ =>
    let (db2, f) := create_flight db flight (pilot_id.getD 0) (aircraft_id.getD 0)
    (.ok 201 f, db2)

/-- `POST /upload/{pilot_id}` (`upload_logbook_file`, main.py lines
175-190): raises 422 "Pilot ID required." when the pilot id is `None`;
otherwise parses the uploaded bytes as CSV (pandas `read_csv` is abstracted
as the `parse` argument), and an exception from parsing propagates
unhandled; on success the parsed frame is only summarised (`print`) and
discarded — the handler responds 201 and never touches the database. -/
def upload_logbook_file (parse : List Nat → Except String Unit)
    (file : List Nat) (pilot_id : Option Nat) (db : DB) : Resp Unit × DB :=
  match pilot_id with
  | none => (.err 422 "Pilot ID required.", db)
  | some _ =>
    match parse file with
    | .error e => (.err 500 e, db)
    | .ok _ => (.ok 201 (), db)

/-! ## Helper lemmas -/

/-- Two code points with the same lowercase folding have the same
uppercase image: `a`/`A`-style pairs map to the same uppercase letter. -/
theorem upNat_eq_of_lowNat_eq {a b : Nat} (h : lowNat a = lowNat b) :
    upNat a = upNat b := by
  simp only [lowNat, upNat] at h ⊢
  split_ifs at h ⊢ <;> omega

/-- Strings equal after lowercase folding are equal after uppercasing. -/
theorem upStr_eq_of_lowStr_eq : ∀ {s t : Str}, lowStr s = lowStr t → upStr s = upStr t := by
  intro s
  induction s with
  | nil =>
    intro t h
    cases t with
    | nil => rfl
    | cons b t => simp [lowStr] at h
  | cons a s ih =>
    intro t h
    cases t with
    | nil => simp [lowStr] at h
    | cons b t =>
      simp only [lowStr, List.map_cons, List.cons.injEq] at h
      simp only [upStr, List.map_cons, List.cons.injEq]
      exact ⟨upNat_eq_of_lowNat_eq h.1, ih h.2⟩

/-! ## Claim theorems -/

/-- C1: the flight-creation handler validates both references before
inserting: a failed pilot lookup yields 422 "Pilot ID required." (checked
first), otherwise a failed aircraft lookup yields 422 "Aircraft ID
required.", and only when both lookups succeed is a flight row appended to
the table and returned; on either error the database is unchanged. -/
theorem p_flight_checks_refs (fl : FlightCreate) (pid aid : Option Nat) (db : DB) :
    (get_pilot_by_id db pid = none →
       p_flight fl pid aid db = (Resp.err 422 "Pilot ID required.", db))
  ∧ (∀ p, get_pilot_by_id db pid = some p → get_aircraft_by_id db aid = none →
       p_flight fl pid aid db = (Resp.err 422 "Aircraft ID required.", db))
  ∧ (∀ p a, get_pilot_by_id db pid = some p → get_aircraft_by_id db aid = some a →
       ∃ f db2, p_flight fl pid aid db = (Resp.ok 201 f, db2) ∧
         db2.flights = db.flights ++ [f]) := by
  refine ⟨?_, ?_, ?_⟩
  · intro h
    simp [p_flight, h]
  · intro p hp ha
    simp [p_flight, hp, ha]
  · intro p a hp ha
    refine ⟨⟨db.nextId, pid.getD 0, aid.getD 0⟩,
      { db with flights := db.flights ++ [⟨db.nextId, pid.getD 0, aid.getD 0⟩],
                nextId := db.nextId + 1 }, ?_, rfl⟩
    simp [p_flight, hp, ha, create_flight]

/-- C1 witness: each branch exercised on a concrete database. -/
theorem p_flight_checks_refs_witness :
    p_flight ⟨()⟩ (some 1) (some 2) ⟨[], [], [], [], 1⟩ =
      (Resp.err 422 "Pilot ID required.", ⟨[], [], [], [], 1⟩)
  ∧ p_flight ⟨()⟩ (some 1) (some 2) ⟨[⟨1, "A"⟩], [], [], [], 2⟩ =
      (Resp.err 422 "Aircraft ID required.", ⟨[⟨1, "A"⟩], [], [], [], 2⟩)
  ∧ ∃ f db2,
      p_flight ⟨()⟩ (some 1) (some 2) ⟨[⟨1, "A"⟩], [⟨2, [78], 1⟩], [], [], 3⟩ =
        (Resp.ok 201 f, db2) ∧
      db2.flights = ([] : List Flight) ++ [f] :=
  ⟨(p_flight_checks_refs ⟨()⟩ (some 1) (some 2) _).1 (by decide),
   (p_flight_checks_refs ⟨()⟩ (some 1) (some 2) _).2.1 ⟨1, "A"⟩ (by decide) (by decide),
   (p_flight_checks_refs ⟨()⟩ (some 1) (some 2) _).2.2 ⟨1, "A"⟩ ⟨2, [78], 1⟩
     (by decide) (by decide)⟩

/-- C2: pilot creation with an already-registered name fails with 400
"Name already registered" and leaves the database unchanged (no second
row); with a fresh name a new row is appended and returned with 201. -/
theorem p_pilot_unique_name (pc : PilotCreate) (db : DB) :
    ((∃ p ∈ db.pilots, p.name = pc.name) →
       p_pilot pc db = (Resp.err 400 "Name already registered", db))
  ∧ ((∀ p ∈ db.pilots, p.name ≠ pc.name) →
       ∃ p db2, p_pilot pc db = (Resp.ok 201 p, db2) ∧ p.name = pc.name ∧
         db2.pilots = db.pilots ++ [p]) := by
  constructor
  · rintro ⟨p, hp, hn⟩
    rcases h : get_pilot_by_name db pc.name with _ | q
    · exfalso
      simp only [get_pilot_by_name] at h
      have := List.find?_eq_none.mp h p hp
      simp [hn] at this
    · simp [p_pilot, h]
  · intro hall
    have h : get_pilot_by_name db pc.name = none := by
      simp only [get_pilot_by_name]
      apply List.find?_eq_none.mpr
      intro x hx
      simpa using hall x hx
    exact ⟨⟨db.nextId, pc.name⟩,
      { db with pilots := db.pilots ++ [⟨db.nextId, pc.name⟩], nextId := db.nextId + 1 },
      by simp [p_pilot, h, create_pilot], rfl, rfl⟩

/-- C2 witness: duplicate "Alice" rejected; fresh "Alice" created. -/
theorem p_pilot_unique_name_witness :
    p_pilot ⟨"Alice"⟩ ⟨[⟨1, "Alice"⟩], [], [], [], 2⟩ =
      (Resp.err 400 "Name already registered", ⟨[⟨1, "Alice"⟩], [], [], [], 2⟩)
  ∧ ∃ p db2, p_pilot ⟨"Alice"⟩ ⟨[], [], [], [], 1⟩ = (Resp.ok 201 p, db2) ∧
      p.name = PilotCreate.name ⟨"Alice"⟩ ∧ db2.pilots = ([] : List Pilot) ++ [p] :=
  ⟨(p_pilot_unique_name ⟨"Alice"⟩ _).1 ⟨⟨1, "Alice"⟩, by simp, rfl⟩,
   (p_pilot_unique_name ⟨"Alice"⟩ _).2 (by simp)⟩

/-- C3: fetching a pilot by an id matching no row fails with 422 and the
detail "Pilot ID required." (the not-found condition reported under the
missing-id message); when a row matches, that full row is returned. -/
theorem g_pilot_not_found (pid : Nat) (db : DB) :
    ((∀ p ∈ db.pilots, p.id ≠ pid) →
       g_pilot pid db = Resp.err 422 "Pilot ID required.")
  ∧ (∀ p, get_pilot_by_id db (some pid) = some p →
       g_pilot pid db = Resp.ok 200 p ∧ p ∈ db.pilots ∧ p.id = pid) := by
  constructor
  · intro hall
    have h : get_pilot_by_id db (some pid) = none := by
      simp only [get_pilot_by_id]
      apply List.find?_eq_none.mpr
      intro x hx
      simpa using hall x hx
    simp [g_pilot, h]
  · intro p hp
    refine ⟨by simp [g_pilot, hp], ?_, ?_⟩
    · simp only [get_pilot_by_id] at hp
      exact List.mem_of_find?_eq_some hp
    · simp only [get_pilot_by_id] at hp
      have := List.find?_some hp
      simpa using this

/-- C3 witness: id 7 absent yields the 422 error; id 1 present returns the
stored row. -/
theorem g_pilot_not_found_witness :
    g_pilot 7 ⟨[⟨1, "Alice"⟩], [], [], [], 2⟩ = Resp.err 422 "Pilot ID required."
  ∧ (g_pilot 1 ⟨[⟨1, "Alice"⟩], [], [], [], 2⟩ = Resp.ok 200 ⟨1, "Alice"⟩ ∧
     (⟨1, "Alice"⟩ : Pilot) ∈ DB.pilots ⟨[⟨1, "Alice"⟩], [], [], [], 2⟩ ∧
     Pilot.id ⟨1, "Alice"⟩ = 1) :=
  ⟨(g_pilot_not_found 7 _).1 (by decide),
   (g_pilot_not_found 1 _).2 ⟨1, "Alice"⟩ (by decide)⟩

/-- C4: the aircraft search uppercases its input before the lookup, so two
tail strings that differ only in letter case (equal after case folding)
give the same result on every database state. -/
theorem search_tn_case_insensitive (s t : Str) (db : DB)
    (h : lowStr s = lowStr t) :
    search_tn (some s) db = search_tn (some t) db ∧
    search_tn (some s) db = Resp.ok 200 (get_aircraft_by_tail db (upStr s)) := by
  refine ⟨?_, rfl⟩
  have hu := upStr_eq_of_lowStr_eq h
  simp [search_tn, hu]

/-- C4 witness: "n12345" and "N12345" (as code points) agree on a database
holding an aircraft with tail "N12345". -/
theorem search_tn_case_insensitive_witness :
    lowStr [110, 49, 50, 51, 52, 53] = lowStr [78, 49, 50, 51, 52, 53]
  ∧ (search_tn (some [110, 49, 50, 51, 52, 53])
        ⟨[⟨1, "A"⟩], [⟨2, [78, 49, 50, 51, 52, 53], 1⟩], [], [], 3⟩ =
     search_tn (some [78, 49, 50, 51, 52, 53])
        ⟨[⟨1, "A"⟩], [⟨2, [78, 49, 50, 51, 52, 53], 1⟩], [], [], 3⟩ ∧
     search_tn (some [110, 49, 50, 51, 52, 53])
        ⟨[⟨1, "A"⟩], [⟨2, [78, 49, 50, 51, 52, 53], 1⟩], [], [], 3⟩ =
       Resp.ok 200 (get_aircraft_by_tail
        ⟨[⟨1, "A"⟩], [⟨2, [78, 49, 50, 51, 52, 53], 1⟩], [], [], 3⟩
        (upStr [110, 49, 50, 51, 52, 53]))) :=
  ⟨by decide, search_tn_case_insensitive _ _ _ (by decide)⟩

/-- C5: logbook deletion is scoped to both identifiers: every row owned by
a different pilot survives (even with a matching logbook id), every row not
matching both identifiers survives, no row is invented, and the other three
tables are untouched. -/
theorem del_logbook_scoped (pid lid : Nat) (db : DB) :
    (∀ lb ∈ db.logbooks, lb.pilot_id ≠ pid →
       lb ∈ (del_logbook pid lid db).2.logbooks)
  ∧ (∀ lb ∈ db.logbooks, ¬(lb.pilot_id = pid ∧ lb.id = lid) →
       lb ∈ (del_logbook pid lid db).2.logbooks)
  ∧ (∀ lb ∈ (del_logbook pid lid db).2.logbooks, lb ∈ db.logbooks)
  ∧ (del_logbook pid lid db).2.pilots = db.pilots
  ∧ (del_logbook pid lid db).2.aircraft = db.aircraft
  ∧ (del_logbook pid lid db).2.flights = db.flights := by
  refine ⟨?_, ?_, ?_, rfl, rfl, rfl⟩
  · intro lb hlb hne
    simp only [del_logbook, delete_logbook_map, List.mem_filter]
    refine ⟨hlb, ?_⟩
    simp [hne]
  · intro lb hlb hne
    simp only [del_logbook, delete_logbook_map, List.mem_filter]
    refine ⟨hlb, ?_⟩
    simp only [Bool.not_eq_eq_eq_not, Bool.not_true, Bool.and_eq_false_iff, beq_eq_false_iff_ne]
    tauto
  · intro lb hlb
    simp only [del_logbook, delete_logbook_map, List.mem_filter] at hlb
    exact hlb.1

/-- C5 witness: deleting (pilot 1, logbook 5) keeps pilot 2's logbook with
the same logbook id 5. -/
theorem del_logbook_scoped_witness :
    (⟨5, 2⟩ : Logbook) ∈ (del_logbook 1 5 ⟨[], [], [], [⟨5, 2⟩], 6⟩).2.logbooks :=
  (del_logbook_scoped 1 5 ⟨[], [], [], [⟨5, 2⟩], 6⟩).1 ⟨5, 2⟩ (by decide) (by decide)

/-- C6: aircraft creation inserts unconditionally: for every request —
including one whose pilot id matches no pilot row — a new aircraft row
owned by that pilot id is appended and returned with status 201. -/
theorem p_aircraft_unconditional (pid : Nat) (ac : AircraftCreate) (db : DB) :
    ∃ a db2, p_aircraft pid ac db = (Resp.ok 201 a, db2) ∧
      a.pilot_id = pid ∧ a.tail = ac.tail ∧
      db2.aircraft = db.aircraft ++ [a] ∧ db2.pilots = db.pilots :=
  ⟨⟨db.nextId, ac.tail, pid⟩,
   { db with aircraft := db.aircraft ++ [⟨db.nextId, ac.tail, pid⟩],
             nextId := db.nextId + 1 },
   rfl, rfl, rfl, rfl, rfl⟩

/-- C7: the upload handler never modifies persistent state: whatever the
pilot id (present or omitted) and whatever the CSV parse does (succeeds or
raises), the database after the handler equals the database before it. -/
theorem upload_no_state_change (parse : List Nat → Except String Unit)
    (file : List Nat) (pid : Option Nat) (db : DB) :
    (upload_logbook_file parse file pid db).2 = db := by
  unfold upload_logbook_file
  rcases pid with _ | p
  · rfl
  · rcases parse file with e | u <;> rfl

/-- C8: logbook deletion always responds with status 202; in particular
when no (pilot, logbook) pair matches, the handler still answers 202 and
the database is unchanged — no not-found error is signalled. -/
theorem del_logbook_always_accepted (pid lid : Nat) (db : DB) :
    (del_logbook pid lid db).1 = Resp.ok 202 ()
  ∧ ((∀ lb ∈ db.logbooks, ¬(lb.pilot_id = pid ∧ lb.id = lid)) →
       del_logbook pid lid db = (Resp.ok 202 (), db)) := by
  refine ⟨rfl, ?_⟩
  intro hall
  have hfilter : db.logbooks.filter
      (fun lb => !(lb.pilot_id == pid && lb.id == lid)) = db.logbooks := by
    apply List.filter_eq_self.mpr
    intro lb hlb
    have := hall lb hlb
    simp only [Bool.not_eq_eq_eq_not, Bool.not_true, Bool.and_eq_false_iff, beq_eq_false_iff_ne]
    tauto
  have hdel : delete_logbook_map db pid lid = db := by
    simp only [delete_logbook_map]
    rw [hfilter]
  simp [del_logbook, hdel]

/-- C8 witness: deleting a nonexistent (1, 5) pair from an empty database
returns 202 and leaves the state as it was. -/
theorem del_logbook_always_accepted_witness :
    del_logbook 1 5 ⟨[], [], [], [], 0⟩ = (Resp.ok 202 (), ⟨[], [], [], [], 0⟩) :=
  (del_logbook_always_accepted 1 5 ⟨[], [], [], [], 0⟩).2 (by decide)

/-- C9: in flight creation, an omitted pilot id and a nonexistent pilot id
produce the same outcome (422 "Pilot ID required." with the database
unchanged), and with an existing pilot, an omitted aircraft id and a
nonexistent aircraft id produce the same outcome (422 "Aircraft ID
required."): the missing-parameter condition is indistinguishable from a
failed referential check. -/
theorem p_flight_none_eq_nonexistent (fl : FlightCreate) (db : DB) :
    (∀ aid pidN, (∀ p ∈ db.pilots, p.id ≠ pidN) →
       p_flight fl none aid db = (Resp.err 422 "Pilot ID required.", db) ∧
       p_flight fl (some pidN) aid db = (Resp.err 422 "Pilot ID required.", db))
  ∧ (∀ pid aidN, (get_pilot_by_id db (some pid)).isSome →
       (∀ a ∈ db.aircraft, a.id ≠ aidN) →
       p_flight fl (some pid) none db = (Resp.err 422 "Aircraft ID required.", db) ∧
       p_flight fl (some pid) (some aidN) db = (Resp.err 422 "Aircraft ID required.", db)) := by
  constructor
  · intro aid pidN hall
    have hnone : get_pilot_by_id db (some pidN) = none := by
      simp only [get_pilot_by_id]
      apply List.find?_eq_none.mpr
      intro x hx
      simpa using hall x hx
    constructor
    · simp [p_flight, get_pilot_by_id]
    · simp [p_flight, hnone]
  · intro pid aidN hsome hall
    obtain ⟨p, hp⟩ := Option.isSome_iff_exists.mp hsome
    have hnone : get_aircraft_by_id db (some aidN) = none := by
      simp only [get_aircraft_by_id]
      apply List.find?_eq_none.mpr
      intro x hx
      simpa using hall x hx
    constructor
    · simp [p_flight, hp, get_aircraft_by_id]
    · simp [p_flight, hp, hnone]

/-- C9 witness: with pilot 1 registered and no aircraft, omitting an id and
passing a nonexistent id (99 or 7) give identical 422 outcomes. -/
theorem p_flight_none_eq_nonexistent_witness :
    (p_flight ⟨()⟩ none (some 2) ⟨[⟨1, "A"⟩], [], [], [], 2⟩ =
       (Resp.err 422 "Pilot ID required.", ⟨[⟨1, "A"⟩], [], [], [], 2⟩) ∧
     p_flight ⟨()⟩ (some 99) (some 2) ⟨[⟨1, "A"⟩], [], [], [], 2⟩ =
       (Resp.err 422 "Pilot ID required.", ⟨[⟨1, "A"⟩], [], [], [], 2⟩))
  ∧ (p_flight ⟨()⟩ (some 1) none ⟨[⟨1, "A"⟩], [], [], [], 2⟩ =
       (Resp.err 422 "Aircraft ID required.", ⟨[⟨1, "A"⟩], [], [], [], 2⟩) ∧
     p_flight ⟨()⟩ (some 1) (some 7) ⟨[⟨1, "A"⟩], [], [], [], 2⟩ =
       (Resp.err 422 "Aircraft ID required.", ⟨[⟨1, "A"⟩], [], [], [], 2⟩)) :=
  ⟨(p_flight_none_eq_nonexistent ⟨()⟩ _).1 (some 2) 99 (by decide),
   (p_flight_none_eq_nonexistent ⟨()⟩ _).2 1 7 (by decide) (by decide)⟩

/-- C10: with the path parameters bound (as they are on every dispatched
request), the logbook-list and aircraft-search handlers never take their
400 branches: each proceeds directly to the database lookup. -/
theorem bound_path_params_skip_400 (pid : Nat) (t : Str) (db : DB) :
    g_logbook (some pid) db = Resp.ok 200 (get_logbook_by_pilot db pid)
  ∧ search_tn (some t) db = Resp.ok 200 (get_aircraft_by_tail db (upStr t)) :=
  ⟨rfl, rfl⟩

end Nauclerus
